import Mathlib

/-
Verification of the asset-sync server in mcp_shopify_server.js.

The development shallowly embeds the server: JavaScript values flowing
through the Express handlers are modelled by an inductive Json type with
JS truthiness, network and filesystem effects are passed in explicitly as
Except-valued oracles, and the base64 codec mirrors
Buffer.from(content).toString(base64) and Buffer.from(text, base64).
-/

namespace StorefrontCloner

/-- Model of a JavaScript/JSON value as handled by express.json and res.json.
An absent object field (JS undefined) is modelled by Option.none at use sites. -/
inductive Json where
  | null
  | bool (b : Bool)
  | num (n : Int)
  | str (s : String)
  | arr (elems : List Json)
  | obj (fields : List (String × Json))

/-- JS truthiness of a value: null, false, 0 and the empty string are falsy;
every array and object is truthy. -/
def Json.truthy : Json → Bool
  | .null => false
  | .bool b => b
  | .num n => n != 0
  | .str s => s ≠ ""
  | .arr _ => true
  | .obj _ => true

/-- Property access `j.k` in JS: none models undefined (non-objects and
missing fields). -/
def Json.getField : Json → String → Option Json
  | .obj fields, k => fields.lookup k
  | _, _ => none

/-- Truthiness of a possibly-undefined value (undefined is falsy). -/
def truthyOpt : Option Json → Bool
  | some j => j.truthy
  | none => false

/-- Array.isArray on a possibly-undefined value. -/
def isArrOpt : Option Json → Bool
  | some (.arr _) => true
  | _ => false

/-- Whether a value is a JSON array. -/
def Json.isArr : Json → Bool
  | .arr _ => true
  | _ => false

/-! ### Base64, as in Buffer.from(bytes).toString(base64) -/

/-- The base64 alphabet: sextet 0..63 to its character. -/
def charOfSextet (s : Nat) : Char :=
  if s < 26 then Char.ofNat (65 + s)
  else if s < 52 then Char.ofNat (97 + (s - 26))
  else if s < 62 then Char.ofNat (48 + (s - 52))
  else if s = 62 then '+'
  else '/'

/-- Inverse of the base64 alphabet (0 on characters outside it). -/
def sextetOfChar (c : Char) : Nat :=
  if 65 ≤ c.toNat ∧ c.toNat ≤ 90 then c.toNat - 65
  else if 97 ≤ c.toNat ∧ c.toNat ≤ 122 then c.toNat - 97 + 26
  else if 48 ≤ c.toNat ∧ c.toNat ≤ 57 then c.toNat - 48 + 52
  else if c = '+' then 62
  else if c = '/' then 63
  else 0

/-- Standard base64 encoding with padding of a byte list, as produced by
Buffer.toString(base64). -/
def b64encode : List Nat → List Char
  | [] => []
  | [a] => [charOfSextet (a / 4), charOfSextet (a % 4 * 16), '=', '=']
  | [a, b] => [charOfSextet (a / 4), charOfSextet (a % 4 * 16 + b / 16),
      charOfSextet (b % 16 * 4), '=']
  | a :: b :: c :: rest =>
      charOfSextet (a / 4) :: charOfSextet (a % 4 * 16 + b / 16) ::
      charOfSextet (b % 16 * 4 + c / 64) :: charOfSextet (c % 64) ::
      b64encode rest

/-- Base64 decoding of a character list in groups of four with padding. -/
def b64decode : List Char → List Nat
  | c1 :: c2 :: c3 :: c4 :: rest =>
      if c3 = '=' then
        [sextetOfChar c1 * 4 + sextetOfChar c2 / 16]
      else if c4 = '=' then
        [sextetOfChar c1 * 4 + sextetOfChar c2 / 16,
         sextetOfChar c2 % 16 * 16 + sextetOfChar c3 / 4]
      else
        (sextetOfChar c1 * 4 + sextetOfChar c2 / 16) ::
        (sextetOfChar c2 % 16 * 16 + sextetOfChar c3 / 4) ::
        ((sextetOfChar c3 % 4 * 64 + sextetOfChar c4) ::
        b64decode rest)
  | _ => []

/-- Membership in the base64 alphabet. -/
def isB64Char (c : Char) : Bool :=
  (65 ≤ c.toNat && c.toNat ≤ 90) || (97 ≤ c.toNat && c.toNat ≤ 122) ||
  (48 ≤ c.toNat && c.toNat ≤ 57) || c = '+' || c = '/'

/-- Buffer.from(text, base64): the Node decoder is lenient, it skips
characters outside the alphabet and never throws. -/
def bufferFromBase64 (s : String) : List Nat :=
  b64decode (s.toList.filter isB64Char)

/-- UTF-8 bytes of a string, as produced by Buffer.from(string). -/
def utf8Bytes (s : String) : List Nat :=
  s.toUTF8.toList.map (·.toNat)

theorem sextetOfChar_charOfSextet : ∀ s, s < 64 → sextetOfChar (charOfSextet s) = s := by
  decide

theorem charOfSextet_ne_pad : ∀ s, s < 64 → charOfSextet s ≠ '=' := by
  decide

theorem sextetOfChar_lt (c : Char) : sextetOfChar c < 64 := by
  unfold sextetOfChar
  split_ifs <;> omega

/-- Base64 decoding inverts encoding on byte lists. -/
theorem b64decode_b64encode : ∀ l : List Nat, (∀ b ∈ l, b < 256) →
    b64decode (b64encode l) = l := by
  intro l
  induction l using b64encode.induct with
  | case1 =>
      intro _
      rfl
  | case2 a =>
      intro h
      have ha : a < 256 := h a (by simp)
      simp only [b64encode, b64decode]
      rw [if_pos trivial]
      rw [sextetOfChar_charOfSextet _ (by omega), sextetOfChar_charOfSextet _ (by omega)]
      simp only [List.cons.injEq, and_true]
      omega
  | case3 a b =>
      intro h
      have ha : a < 256 := h a (by simp)
      have hb : b < 256 := h b (by simp)
      simp only [b64encode, b64decode]
      rw [if_neg (charOfSextet_ne_pad _ (by omega)), if_pos trivial]
      rw [sextetOfChar_charOfSextet _ (by omega), sextetOfChar_charOfSextet _ (by omega),
        sextetOfChar_charOfSextet _ (by omega)]
      simp only [List.cons.injEq, and_true]
      omega
  | case4 a b c rest ih =>
      intro h
      have ha : a < 256 := h a (by simp)
      have hb : b < 256 := h b (by simp)
      have hc : c < 256 := h c (by simp)
      have hrest : ∀ x ∈ rest, x < 256 := fun x hx => h x (by simp [hx])
      simp only [b64encode, b64decode]
      rw [if_neg (charOfSextet_ne_pad _ (by omega)), if_neg (charOfSextet_ne_pad _ (by omega))]
      rw [sextetOfChar_charOfSextet _ (by omega), sextetOfChar_charOfSextet _ (by omega),
        sextetOfChar_charOfSextet _ (by omega), sextetOfChar_charOfSextet _ (by omega)]
      simp only [List.cons.injEq]
      refine ⟨by omega, by omega, by omega, ih hrest⟩

/-! ### shopifyRequest and uploadAsset -/

/-- An HTTP response as sent by res.status(...).json(...). -/
structure HttpResponse where
  status : Nat
  body : Json

/-- The outcome of the fetch inside shopifyRequest: the upstream status,
the response text (read when not ok) and its parsed JSON (read when ok). -/
structure FetchResult where
  status : Nat
  bodyText : String
  bodyJson : Json

/-- res.ok of a fetch response: status in 200..299. -/
def fetchOk (r : FetchResult) : Bool :=
  200 ≤ r.status && r.status < 300

/-- shopifyRequest: returns the parsed JSON when the upstream response is ok,
otherwise throws an Error whose message embeds status, endpoint and body text. -/
def shopifyRequest (endpoint : String) (r : FetchResult) : Except String Json :=
  if fetchOk r then .ok r.bodyJson
  else .error ("Shopify API error " ++ toString r.status ++ " on " ++ endpoint ++ ": "
    ++ r.bodyText)

/-- The PUT payload built by uploadAsset: the asset key together with the
base64 attachment of the content bytes. -/
structure AssetPut where
  key : String
  attachment : List Char

/-- uploadAsset builds the PUT payload for /themes/{id}/assets.json:
attachment := Buffer.from(content).toString(base64). -/
def uploadAsset (key : String) (content : List Nat) : AssetPut :=
  ⟨key, b64encode content⟩

/-! ### GET /themes handler -/

/-- The GET /themes handler: on success responds 200 with
data.themes or the empty array when that field is absent or falsy; on a
thrown shopifyRequest error responds 500 with an error object. -/
def themesHandler (r : FetchResult) : HttpResponse :=
  match shopifyRequest "/themes.json" r with
  | .ok data =>
      ⟨200, match data.getField "themes" with
            | some t => if t.truthy then t else Json.arr []
            | none => Json.arr []⟩
  | .error msg => ⟨500, Json.obj [("error", Json.str msg)]⟩

/-! ### POST /publish-section handler -/

/-- The three local files watched and published by the server. -/
def watchFiles : List String :=
  ["product-3d-scroll.liquid", "product-3d-scroll.css", "product-3d-scroll.js"]

/-- The remote keys the three files are published under, in upload order. -/
def sectionKeys : List String :=
  ["sections/product-3d-scroll.liquid", "assets/product-3d-scroll.css",
   "assets/product-3d-scroll.js"]

/-- Environment of a publish-section request: the request body, the result
of fs.readFileSync per file name, and the outcome of awaiting the PUT per
(key, content bytes). Errors model thrown exceptions and rejections. -/
structure PublishEnv where
  body : Json
  readFile : String → Except String String
  upload : String → List Nat → Except String Json

/-- A handler run: the HTTP response together with the PUT payloads that
were actually issued, in order. -/
structure HandlerRun where
  resp : HttpResponse
  uploads : List AssetPut

/-- Awaits the uploads one after the other, as the sequence of awaited
uploadAsset calls does: the first rejection aborts the rest. Every issued
PUT payload is recorded, including the failing one. -/
def runUploads (upload : String → List Nat → Except String Json) :
    List (String × List Nat) → Except String Unit × List AssetPut
  | [] => (.ok (), [])
  | (k, c) :: rest =>
      match upload k c with
      | .error e => (.error e, [uploadAsset k c])
      | .ok _ =>
          let r := runUploads upload rest
          (r.1, uploadAsset k c :: r.2)

/-- Body of every error response: { error: message }. -/
def errBody (msg : String) : Json :=
  Json.obj [("error", Json.str msg)]

/-- The POST /publish-section handler: 400 if themeId is falsy; otherwise
reads the three watched files (a read failure is caught and yields 500),
uploads the three assets in order (the first failure yields 500), and
responds 200 { success: true } when all uploads succeed. -/
def publishSection (env : PublishEnv) : HandlerRun :=
  if truthyOpt (env.body.getField "themeId") then
    match env.readFile "product-3d-scroll.liquid" with
    | .error e => ⟨⟨500, errBody e⟩, []⟩
    | .ok liquid =>
        match env.readFile "product-3d-scroll.css" with
        | .error e => ⟨⟨500, errBody e⟩, []⟩
        | .ok css =>
            match env.readFile "product-3d-scroll.js" with
            | .error e => ⟨⟨500, errBody e⟩, []⟩
            | .ok js =>
                match runUploads env.upload
                    [("sections/product-3d-scroll.liquid", utf8Bytes liquid),
                     ("assets/product-3d-scroll.css", utf8Bytes css),
                     ("assets/product-3d-scroll.js", utf8Bytes js)] with
                | (.ok _, ps) => ⟨⟨200, Json.obj [("success", Json.bool true)]⟩, ps⟩
                | (.error e, ps) => ⟨⟨500, errBody e⟩, ps⟩
  else ⟨⟨400, errBody "themeId is required"⟩, []⟩

/-! ### POST /upload-frames handler -/

/-- JS string conversion as used by the template literal assets/{frame.name};
none models undefined. -/
def toJsString : Option Json → String
  | none => "undefined"
  | some .null => "null"
  | some (.bool b) => if b then "true" else "false"
  | some (.num n) => toString n
  | some (.str s) => s
  | some (.arr _) => ""
  | some (.obj _) => "[object Object]"

/-- One iteration of the upload loop over frames: Buffer.from(content, base64)
throws a TypeError when frame.content is not a string, otherwise the decoded
bytes are uploaded under assets/{frame.name}. -/
def runFrames (upload : String → List Nat → Except String Json) :
    List Json → Except String Unit × List AssetPut
  | [] => (.ok (), [])
  | f :: rest =>
      match f.getField "content" with
      | some (Json.str s) =>
          let key := "assets/" ++ toJsString (f.getField "name")
          let c := bufferFromBase64 s
          match upload key c with
          | .error e => (.error e, [uploadAsset key c])
          | .ok _ =>
              let r := runFrames upload rest
              (r.1, uploadAsset key c :: r.2)
      | _ => (.error "TypeError: content must be a string or buffer", [])

/-- Environment of an upload-frames request: the request body and the
outcome of awaiting each PUT. -/
structure FramesEnv where
  body : Json
  upload : String → List Nat → Except String Json

/-- The POST /upload-frames handler: 400 unless themeId is truthy and
frames is a (truthy) array; otherwise uploads each frame in order inside one
try block, so the first rejection aborts the loop and yields 500; responds
200 { success: true } only when every upload succeeds. -/
def uploadFrames (env : FramesEnv) : HandlerRun :=
  let themeId := env.body.getField "themeId"
  let frames := env.body.getField "frames"
  if !truthyOpt themeId || !truthyOpt frames || !isArrOpt frames then
    ⟨⟨400, errBody "themeId and frames array are required"⟩, []⟩
  else
    match frames with
    | some (Json.arr l) =>
        match runFrames env.upload l with
        | (.ok _, ps) => ⟨⟨200, Json.obj [("success", Json.bool true)]⟩, ps⟩
        | (.error e, ps) => ⟨⟨500, errBody e⟩, ps⟩
    | _ => ⟨⟨400, errBody "themeId and frames array are required"⟩, []⟩

/-! ### setupWatcher -/

/-- path.basename of a slash-separated path. -/
def basename (p : String) : String :=
  (p.splitOn "/").getLastD p

/-- The keyMap object of setupWatcher, file name to remote key; none models
the undefined lookup on a name outside the map (unreachable in practice
because chokidar only watches the three names of watchFiles). -/
def keyMap (fileName : String) : Option String :=
  [("product-3d-scroll.liquid", "sections/product-3d-scroll.liquid"),
   ("product-3d-scroll.css", "assets/product-3d-scroll.css"),
   ("product-3d-scroll.js", "assets/product-3d-scroll.js")].lookup fileName

/-- Outcome of one run of the change callback: the PUT payload issued (none
when the read threw before any upload) and the line logged by the callback. -/
structure ChangeOutcome where
  attempt : Option AssetPut
  logLine : String

/-- The chokidar change callback: reads the changed file OUTSIDE the try
block — a read failure therefore escapes the async callback (modelled as
Except.error, an unhandled rejection); an upload failure is caught inside
the try and only logged. Nothing here ever removes a path from the watch
set. -/
def changeHandler (themeId : String) (filePath : String)
    (read : Except String String)
    (upload : String → List Nat → Except String Json) :
    Except String ChangeOutcome :=
  match read with
  | .error e => .error e
  | .ok content =>
      match upload ((keyMap (basename filePath)).getD "undefined") (utf8Bytes content) with
      | .ok _ =>
          .ok ⟨some (uploadAsset ((keyMap (basename filePath)).getD "undefined")
              (utf8Bytes content)),
            basename filePath ++ " updated on theme " ++ themeId⟩
      | .error e =>
          .ok ⟨some (uploadAsset ((keyMap (basename filePath)).getD "undefined")
              (utf8Bytes content)),
            "Failed to update " ++ basename filePath ++ ": " ++ e⟩

/-- The watcher dispatch: chokidar invokes the change callback once per
delivered change event; there is no debounce, coalescing or filtering
between events. -/
def watcherRun (themeId : String) (events : List String)
    (read : String → Except String String)
    (upload : String → List Nat → Except String Json) :
    List (Except String ChangeOutcome) :=
  events.map (fun p => changeHandler themeId p (read p) upload)

/-- Number of upload attempts (PUT payloads issued) among a list of change
callback outcomes. -/
def uploadAttempts (rs : List (Except String ChangeOutcome)) : Nat :=
  (rs.filterMap (fun r => match r with
    | .ok o => o.attempt
    | .error _ => none)).length

/-! ### Interleaving model of concurrent change events

The change callback is async: it reads the file synchronously when the
event fires and then awaits uploadAsset, so between the start of an upload
and its completion further change events run and start their own uploads.
The code orders nothing: it keeps no version per key, no in-flight guard
and no record of hashes, and the remote simply stores whichever PUT it
applies last. A schedule of k events on one watched key is a list of
start/complete actions; start i captures the file content at event i
(the readFileSync in the callback) and complete i is the moment the PUT of
upload i takes effect at the remote. -/

inductive WAction where
  | start (i : Nat)
  | complete (i : Nat)

/-- Validity check of a schedule of k events: starts occur in event order
0, 1, ..., k-1 (chokidar delivers events in order and the read is
synchronous), each upload completes exactly once, only after its start;
completions of distinct in-flight uploads may come in any order, because
the code imposes none. -/
def checkTrace (k : Nat) : Nat → List Nat → List WAction → Bool
  | n, pend, [] => n == k && pend.isEmpty
  | n, pend, .start i :: rest =>
      i == n && decide (i < k) && checkTrace k (n + 1) (i :: pend) rest
  | n, pend, .complete i :: rest =>
      pend.contains i && checkTrace k n (pend.erase i) rest

/-- A schedule of k change events that the event loop can produce. -/
def validTrace (k : Nat) (tr : List WAction) : Bool :=
  checkTrace k 0 [] tr

/-- Largest number of simultaneously in-flight uploads along a schedule. -/
def inFlightTrack : List Nat → List WAction → Nat
  | pend, [] => pend.length
  | pend, .start i :: rest => max (pend.length + 1) (inFlightTrack (i :: pend) rest)
  | pend, .complete i :: rest => inFlightTrack (pend.erase i) rest

/-- Maximum number of uploads in flight at once for the same key. -/
def maxInFlight (tr : List WAction) : Nat :=
  inFlightTrack [] tr

/-- Remote asset content after running a schedule: each completion
overwrites the remote with the content captured at the start of that
upload; the code discards nothing. -/
def remoteAfter (contents : Nat → String) : Option String → List WAction → Option String
  | r, [] => r
  | r, .start _ :: rest => remoteAfter contents r rest
  | _, .complete i :: rest => remoteAfter contents (some (contents i)) rest

/-- The upload whose completion comes last in the schedule. -/
def lastComplete (tr : List WAction) : Option Nat :=
  (tr.filterMap (fun a => match a with
    | .complete i => some i
    | .start _ => none)).getLast?

/-- Whether need occurs as a contiguous substring of hay. -/
def hasSubstr (hay need : String) : Bool :=
  hay.toList.tails.any (fun t => need.toList.isPrefixOf t)

/-! ### Helper lemmas -/

theorem utf8Bytes_lt (s : String) : ∀ b ∈ utf8Bytes s, b < 256 := by
  intro b hb
  simp only [utf8Bytes, List.mem_map] at hb
  obtain ⟨u, _, rfl⟩ := hb
  exact UInt8.toNat_lt_size u

theorem b64decode_lt : ∀ l : List Char, ∀ x ∈ b64decode l, x < 256 := by
  intro l
  induction l using b64decode.induct with
  | case1 c1 c2 c4 rest =>
      intro x hx
      rw [b64decode, if_pos rfl] at hx
      have v1 := sextetOfChar_lt c1
      have v2 := sextetOfChar_lt c2
      simp only [List.mem_singleton] at hx
      omega
  | case2 c1 c2 c3 rest h3 =>
      intro x hx
      rw [b64decode, if_neg h3, if_pos rfl] at hx
      have v1 := sextetOfChar_lt c1
      have v2 := sextetOfChar_lt c2
      have v3 := sextetOfChar_lt c3
      simp only [List.mem_cons, List.not_mem_nil, or_false] at hx
      rcases hx with hx | hx <;> omega
  | case3 c1 c2 c3 c4 rest h3 h4 ih =>
      intro x hx
      rw [b64decode, if_neg h3, if_neg h4] at hx
      have v1 := sextetOfChar_lt c1
      have v2 := sextetOfChar_lt c2
      have v3 := sextetOfChar_lt c3
      have v4 := sextetOfChar_lt c4
      simp only [List.mem_cons] at hx
      rcases hx with hx | hx | hx | hx
      · omega
      · omega
      · omega
      · exact ih x hx
  | case4 l h =>
      intro x hx
      rw [b64decode.eq_def] at hx
      rcases l with _ | ⟨c1, _ | ⟨c2, _ | ⟨c3, _ | ⟨c4, rest⟩⟩⟩⟩ <;> simp at hx
      exact absurd rfl (h c1 c2 c3 c4 rest)

theorem bufferFromBase64_lt (s : String) : ∀ b ∈ bufferFromBase64 s, b < 256 := by
  intro b hb
  exact b64decode_lt _ b hb

/-! ### Claim theorems -/

/-- C9: content pass-through — for every uploaded asset the bytes the remote
receives (the base64 attachment of the PUT payload built by uploadAsset,
decoded) are exactly the input bytes; in particular the UTF-8 bytes of a
textual file and the bytes decoded from a frame contentBase64 field are
re-encoded without any transformation. -/
theorem uploadAsset_passthrough (key : String) (content : List Nat) (s t : String)
    (h : ∀ b ∈ content, b < 256) :
    b64decode (uploadAsset key content).attachment = content ∧
    b64decode (uploadAsset key (utf8Bytes s)).attachment = utf8Bytes s ∧
    b64decode (uploadAsset key (bufferFromBase64 t)).attachment = bufferFromBase64 t :=
  ⟨b64decode_b64encode content h,
   b64decode_b64encode _ (utf8Bytes_lt s),
   b64decode_b64encode _ (bufferFromBase64_lt t)⟩

/-- C9 witness: pass-through evaluated on the bytes 0, 255, 16, the text
"hi!" and the frame content "AAEC". -/
theorem uploadAsset_passthrough_witness :
    (∀ b ∈ [0, 255, 16], b < 256) ∧
    (b64decode (uploadAsset "assets/frame1.jpg" [0, 255, 16]).attachment = [0, 255, 16] ∧
     b64decode (uploadAsset "assets/frame1.jpg" (utf8Bytes "hi!")).attachment = utf8Bytes "hi!" ∧
     b64decode (uploadAsset "assets/frame1.jpg" (bufferFromBase64 "AAEC")).attachment =
       bufferFromBase64 "AAEC") :=
  ⟨by decide, uploadAsset_passthrough "assets/frame1.jpg" [0, 255, 16] "hi!" "AAEC" (by decide)⟩

/-- C10: on every successful upstream call GET /themes responds 200 and the
body is never null (JS undefined or null): when the themes field is absent
or falsy the handler substitutes the empty array, and when it is an array
it is passed through. -/
theorem themes_success_body (r : FetchResult) (h : fetchOk r = true) :
    (themesHandler r).status = 200 ∧
    (themesHandler r).body ≠ Json.null ∧
    (truthyOpt (r.bodyJson.getField "themes") = false →
      (themesHandler r).body = Json.arr []) ∧
    (∀ l, r.bodyJson.getField "themes" = some (Json.arr l) →
      (themesHandler r).body = Json.arr l) := by
  have hh : themesHandler r = ⟨200, match r.bodyJson.getField "themes" with
      | some t => if t.truthy then t else Json.arr []
      | none => Json.arr []⟩ := by
    unfold themesHandler shopifyRequest
    rw [if_pos h]
  rw [hh]
  refine ⟨rfl, ?_, ?_, ?_⟩
  · cases hg : r.bodyJson.getField "themes" with
    | none => simp
    | some t =>
        cases t <;> simp [Json.truthy] <;> split_ifs <;> simp
  · intro hf
    cases hg : r.bodyJson.getField "themes" with
    | none => simp
    | some t =>
        rw [hg] at hf
        simp only [truthyOpt] at hf
        simp [hf]
  · intro l hl
    simp [hl, Json.truthy]

/-- C10 witness: a successful upstream response whose themes field is the
empty array. -/
theorem themes_success_body_witness :
    fetchOk ⟨200, "", Json.obj [("themes", Json.arr [])]⟩ = true ∧
    ((themesHandler ⟨200, "", Json.obj [("themes", Json.arr [])]⟩).status = 200 ∧
     (themesHandler ⟨200, "", Json.obj [("themes", Json.arr [])]⟩).body ≠ Json.null ∧
     (truthyOpt (Json.obj [("themes", Json.arr [])] |>.getField "themes") = false →
       (themesHandler ⟨200, "", Json.obj [("themes", Json.arr [])]⟩).body = Json.arr []) ∧
     (∀ l, (Json.obj [("themes", Json.arr [])] |>.getField "themes") = some (Json.arr l) →
       (themesHandler ⟨200, "", Json.obj [("themes", Json.arr [])]⟩).body = Json.arr l)) :=
  ⟨rfl, themes_success_body ⟨200, "", Json.obj [("themes", Json.arr [])]⟩ rfl⟩

/-- C4 counterexample: when the remote API answers HTTP 401 the GET /themes
handler responds 500, not 502, and its body is the raw error message, which
does not contain the tag "AuthError". -/
theorem themes_401_counterexample :
    (themesHandler ⟨401, "Invalid API key", Json.null⟩).status = 500 ∧
    ¬ (themesHandler ⟨401, "Invalid API key", Json.null⟩).status = 502 ∧
    (themesHandler ⟨401, "Invalid API key", Json.null⟩).body =
      errBody "Shopify API error 401 on /themes.json: Invalid API key" ∧
    hasSubstr "Shopify API error 401 on /themes.json: Invalid API key" "AuthError" = false := by
  refine ⟨rfl, by decide, rfl, by decide⟩

/-- C4 amended: GET /themes returns 200 with the target list on success; on
every upstream failure it returns HTTP 500 (never 502) whose body carries
the raw upstream error message, with no taxonomy tag. -/
theorem themes_upstream_failure_500 (r : FetchResult) (h : fetchOk r = false) :
    (themesHandler r).status = 500 ∧
    (themesHandler r).body =
      errBody ("Shopify API error " ++ toString r.status ++ " on " ++ "/themes.json" ++ ": "
        ++ r.bodyText) := by
  unfold themesHandler shopifyRequest
  rw [if_neg (by simp [h])]
  exact ⟨rfl, rfl⟩

/-- C4 amended witness: upstream 401. -/
theorem themes_upstream_failure_500_witness :
    fetchOk ⟨401, "Invalid API key", Json.null⟩ = false ∧
    ((themesHandler ⟨401, "Invalid API key", Json.null⟩).status = 500 ∧
     (themesHandler ⟨401, "Invalid API key", Json.null⟩).body =
       errBody ("Shopify API error " ++ toString (401 : Nat) ++ " on " ++ "/themes.json" ++ ": "
         ++ "Invalid API key")) :=
  ⟨rfl, themes_upstream_failure_500 ⟨401, "Invalid API key", Json.null⟩ rfl⟩

/-! ### Publish-section claims -/

/-- Read oracle of a run where all three watched files exist. -/
def goodReads : String → Except String String := fun f =>
  if f = "product-3d-scroll.liquid" then .ok "liquid content"
  else if f = "product-3d-scroll.css" then .ok "css content"
  else .ok "js content"

/-- Upload oracle of a run where every PUT succeeds. -/
def allOk : String → List Nat → Except String Json := fun _ _ => .ok (Json.obj [])

/-- A publish request with a valid themeId in an environment where every
read and every upload succeeds. -/
def goodPublishEnv : PublishEnv :=
  ⟨Json.obj [("themeId", Json.str "42")], goodReads, allOk⟩

/-- Helper: a publish run with a truthy themeId, successful reads and
successful uploads issues exactly the three section PUTs, in order, and
responds 200 with the single flag object. -/
theorem publishSection_all_ok (env : PublishEnv) (l c j : String)
    (ht : truthyOpt (env.body.getField "themeId") = true)
    (h1 : env.readFile "product-3d-scroll.liquid" = .ok l)
    (h2 : env.readFile "product-3d-scroll.css" = .ok c)
    (h3 : env.readFile "product-3d-scroll.js" = .ok j)
    (hu : ∀ k b, ∃ v, env.upload k b = Except.ok v) :
    publishSection env = ⟨⟨200, Json.obj [("success", Json.bool true)]⟩,
      [uploadAsset "sections/product-3d-scroll.liquid" (utf8Bytes l),
       uploadAsset "assets/product-3d-scroll.css" (utf8Bytes c),
       uploadAsset "assets/product-3d-scroll.js" (utf8Bytes j)]⟩ := by
  obtain ⟨v1, hv1⟩ := hu "sections/product-3d-scroll.liquid" (utf8Bytes l)
  obtain ⟨v2, hv2⟩ := hu "assets/product-3d-scroll.css" (utf8Bytes c)
  obtain ⟨v3, hv3⟩ := hu "assets/product-3d-scroll.js" (utf8Bytes j)
  unfold publishSection
  rw [if_pos ht, h1, h2, h3]
  simp [runUploads, hv1, hv2, hv3]

/-- C1 counterexample: the server stores no sync state at all, so a second
publish call with every file content unchanged is the same function of the
same environment and still issues an upload for every watched file — here
the run responds 200 and uploads all three keys, including the unchanged
liquid file, which the claim says must not be re-uploaded. -/
theorem publish_reupload_counterexample :
    (publishSection goodPublishEnv).resp.status = 200 ∧
    (publishSection goodPublishEnv).uploads.map AssetPut.key = sectionKeys ∧
    "sections/product-3d-scroll.liquid" ∈
      (publishSection goodPublishEnv).uploads.map AssetPut.key := by
  refine ⟨rfl, rfl, by decide⟩

/-- C1 amended: no delta is computed and no AssetRecord exists — every
publish run with a truthy themeId and readable files uploads all three
watched files unconditionally, whatever was uploaded before and whether or
not any content changed. -/
theorem publish_always_uploads_all (env : PublishEnv) (l c j : String)
    (ht : truthyOpt (env.body.getField "themeId") = true)
    (h1 : env.readFile "product-3d-scroll.liquid" = .ok l)
    (h2 : env.readFile "product-3d-scroll.css" = .ok c)
    (h3 : env.readFile "product-3d-scroll.js" = .ok j)
    (hu : ∀ k b, ∃ v, env.upload k b = Except.ok v) :
    (publishSection env).uploads.map AssetPut.key = sectionKeys := by
  rw [publishSection_all_ok env l c j ht h1 h2 h3 hu]
  rfl

/-- C1 amended witness: all three keys are uploaded in the all-success
environment. -/
theorem publish_always_uploads_all_witness :
    truthyOpt (goodPublishEnv.body.getField "themeId") = true ∧
    (publishSection goodPublishEnv).uploads.map AssetPut.key = sectionKeys :=
  ⟨rfl, publish_always_uploads_all goodPublishEnv "liquid content" "css content" "js content"
    rfl rfl rfl rfl (fun _ _ => ⟨Json.obj [], rfl⟩)⟩

/-- C3 counterexample: a fully successful publish run responds 200 whose
body is the object with the single flag success, not a per-file breakdown
array — there is no array of length 3 in the response. -/
theorem publish_no_breakdown_counterexample :
    (publishSection goodPublishEnv).resp.status = 200 ∧
    (publishSection goodPublishEnv).resp.body = Json.obj [("success", Json.bool true)] ∧
    (publishSection goodPublishEnv).resp.body.isArr = false :=
  ⟨rfl, rfl, rfl⟩

/-- C3 amended: a publish request with a truthy themeId in which reads and
uploads all succeed reads the fixed bundle, uploads one asset per watched
file (three uploads, equal to the watch-set size), and responds 200 with
the single object success true; any failure instead yields one 500 error
response, never a per-file breakdown. -/
theorem publish_success_shape (env : PublishEnv) (l c j : String)
    (ht : truthyOpt (env.body.getField "themeId") = true)
    (h1 : env.readFile "product-3d-scroll.liquid" = .ok l)
    (h2 : env.readFile "product-3d-scroll.css" = .ok c)
    (h3 : env.readFile "product-3d-scroll.js" = .ok j)
    (hu : ∀ k b, ∃ v, env.upload k b = Except.ok v) :
    (publishSection env).resp = ⟨200, Json.obj [("success", Json.bool true)]⟩ ∧
    (publishSection env).uploads.length = watchFiles.length := by
  rw [publishSection_all_ok env l c j ht h1 h2 h3 hu]
  exact ⟨rfl, rfl⟩

/-- C3 amended witness: the all-success environment. -/
theorem publish_success_shape_witness :
    truthyOpt (goodPublishEnv.body.getField "themeId") = true ∧
    ((publishSection goodPublishEnv).resp = ⟨200, Json.obj [("success", Json.bool true)]⟩ ∧
     (publishSection goodPublishEnv).uploads.length = watchFiles.length) :=
  ⟨rfl, publish_success_shape goodPublishEnv "liquid content" "css content" "js content"
    rfl rfl rfl rfl (fun _ _ => ⟨Json.obj [], rfl⟩)⟩

/-! ### Upload-frames claims -/

/-- A three-frame batch request body. -/
def framesBody : Json :=
  Json.obj [("themeId", Json.str "7"),
    ("frames", Json.arr
      [Json.obj [("name", Json.str "frame1.jpg"), ("content", Json.str "AAE=")],
       Json.obj [("name", Json.str "frame2.jpg"), ("content", Json.str "AgM=")],
       Json.obj [("name", Json.str "frame3.jpg"), ("content", Json.str "BAU=")]])]

/-- Upload oracle that rejects the PUT of the second frame. -/
def failSecond : String → List Nat → Except String Json := fun k _ =>
  if k = "assets/frame2.jpg" then .error "Shopify API error 422 on assets.json: invalid"
  else .ok (Json.obj [])

/-- The batch request in the environment where frame #2 fails. -/
def framesEnvC2 : FramesEnv := ⟨framesBody, failSecond⟩

/-- C2 counterexample: in a 3-frame batch where the upload of frame #2
fails, the loop aborts — frame #3 is never attempted — and the response is
a single 500 error object; nothing reports success for frames #1 and #3. -/
theorem frames_abort_counterexample :
    (uploadFrames framesEnvC2).resp.status = 500 ∧
    (uploadFrames framesEnvC2).resp.body =
      errBody "Shopify API error 422 on assets.json: invalid" ∧
    (uploadFrames framesEnvC2).uploads.map AssetPut.key =
      ["assets/frame1.jpg", "assets/frame2.jpg"] :=
  ⟨rfl, rfl, rfl⟩

/-- Helper: runFrames over a prefix whose uploads all succeed prepends one
PUT per frame of the prefix and continues with the rest. -/
theorem runFrames_ok_prefix (up : String → List Nat → Except String Json) :
    ∀ pre : List Json,
    (∀ g ∈ pre, ∃ s, g.getField "content" = some (Json.str s) ∧
      ∃ v, up ("assets/" ++ toJsString (g.getField "name")) (bufferFromBase64 s) = Except.ok v) →
    ∀ rest : List Json, ∃ ps : List AssetPut, ps.length = pre.length ∧
      runFrames up (pre ++ rest) = ((runFrames up rest).1, ps ++ (runFrames up rest).2) := by
  intro pre
  induction pre with
  | nil =>
      intro _ rest
      exact ⟨[], rfl, rfl⟩
  | cons g gs ih =>
      intro h rest
      obtain ⟨s, hs, v, hv⟩ := h g (by simp)
      obtain ⟨ps, hlen, hrun⟩ := ih (fun g hg => h g (by simp [hg])) rest
      refine ⟨uploadAsset ("assets/" ++ toJsString (g.getField "name")) (bufferFromBase64 s) :: ps,
        by simp [hlen], ?_⟩
      simp only [List.cons_append, runFrames, hs, hv, List.append_eq, hrun]

/-- C2 amended: the frame uploads run sequentially inside one try block, so
the first failing upload aborts the whole batch: the frames after it are
never attempted, and the response is one 500 error object instead of
per-file outcomes. -/
theorem frames_failure_aborts (env : FramesEnv) (pre post : List Json) (f : Json)
    (s e : String)
    (htid : truthyOpt (env.body.getField "themeId") = true)
    (hfr : env.body.getField "frames" = some (Json.arr (pre ++ f :: post)))
    (hpre : ∀ g ∈ pre, ∃ s, g.getField "content" = some (Json.str s) ∧
      ∃ v, env.upload ("assets/" ++ toJsString (g.getField "name")) (bufferFromBase64 s) = Except.ok v)
    (hs : f.getField "content" = some (Json.str s))
    (he : env.upload ("assets/" ++ toJsString (f.getField "name")) (bufferFromBase64 s) =
      Except.error e) :
    (uploadFrames env).resp.status = 500 ∧
    (uploadFrames env).resp.body = errBody e ∧
    (uploadFrames env).uploads.length = pre.length + 1 := by
  obtain ⟨ps, hlen, hrun⟩ := runFrames_ok_prefix env.upload pre hpre (f :: post)
  have hfail : runFrames env.upload (f :: post) =
      (.error e, [uploadAsset ("assets/" ++ toJsString (f.getField "name")) (bufferFromBase64 s)]) := by
    simp only [runFrames, hs, he]
  unfold uploadFrames
  rw [hfr]
  simp only [truthyOpt, isArrOpt, Json.truthy, htid]
  rw [hrun, hfail]
  simp only [truthyOpt, Json.truthy] at htid
  rw [htid]
  simp [hlen]

/-- C2 amended witness: the 3-frame batch where frame #2 fails aborts after
two PUTs. -/
theorem frames_failure_aborts_witness :
    truthyOpt (framesBody.getField "themeId") = true ∧
    framesBody.getField "frames" = some (Json.arr
      [Json.obj [("name", Json.str "frame1.jpg"), ("content", Json.str "AAE=")],
       Json.obj [("name", Json.str "frame2.jpg"), ("content", Json.str "AgM=")],
       Json.obj [("name", Json.str "frame3.jpg"), ("content", Json.str "BAU=")]]) ∧
    ((uploadFrames framesEnvC2).resp.status = 500 ∧
     (uploadFrames framesEnvC2).resp.body =
       errBody "Shopify API error 422 on assets.json: invalid" ∧
     (uploadFrames framesEnvC2).uploads.length = 1 + 1) :=
  ⟨rfl, rfl,
    frames_failure_aborts framesEnvC2
      [Json.obj [("name", Json.str "frame1.jpg"), ("content", Json.str "AAE=")]]
      [Json.obj [("name", Json.str "frame3.jpg"), ("content", Json.str "BAU=")]]
      (Json.obj [("name", Json.str "frame2.jpg"), ("content", Json.str "AgM=")])
      "AgM=" "Shopify API error 422 on assets.json: invalid"
      rfl rfl
      (by
        intro g hg
        simp only [List.mem_singleton] at hg
        subst hg
        exact ⟨"AAE=", rfl, Json.obj [], rfl⟩)
      rfl rfl⟩

/-- A batch whose single frame carries content that is not valid base64. -/
def invalidB64Env : FramesEnv :=
  ⟨Json.obj [("themeId", Json.str "7"),
    ("frames", Json.arr [Json.obj [("name", Json.str "f.jpg"), ("content", Json.str "!!!")]])],
   allOk⟩

/-- C8 counterexample: a frame whose contentBase64 is not valid base64 is
not rejected with 400 — Buffer.from decodes leniently and never throws, so
the handler performs the upload and responds 200. -/
theorem frames_invalid_base64_counterexample :
    (uploadFrames invalidB64Env).resp.status = 200 ∧
    ¬ (uploadFrames invalidB64Env).resp.status = 400 ∧
    (uploadFrames invalidB64Env).uploads.length = 1 :=
  ⟨rfl, by decide, rfl⟩

/-- C8 amended: the only validated inputs are a falsy themeId (for both
endpoints) and a falsy or non-array frames field, each answered with 400
and no upload; base64 validity of frame content is never checked. -/
theorem validation_400 (body : Json) (rf : String → Except String String)
    (up : String → List Nat → Except String Json) :
    (truthyOpt (body.getField "themeId") = false →
      (publishSection ⟨body, rf, up⟩).resp.status = 400 ∧
      (publishSection ⟨body, rf, up⟩).uploads = []) ∧
    ((truthyOpt (body.getField "themeId") = false ∨
      truthyOpt (body.getField "frames") = false ∨
      isArrOpt (body.getField "frames") = false) →
      (uploadFrames ⟨body, up⟩).resp.status = 400 ∧
      (uploadFrames ⟨body, up⟩).uploads = []) := by
  constructor
  · intro h
    unfold publishSection
    rw [if_neg (by simp [h])]
    exact ⟨rfl, rfl⟩
  · intro h
    unfold uploadFrames
    have hc : (!truthyOpt (body.getField "themeId") || !truthyOpt (body.getField "frames")
        || !isArrOpt (body.getField "frames")) = true := by
      rcases h with h | h | h <;> simp [h]
    rw [if_pos hc]
    exact ⟨rfl, rfl⟩

/-- C8 amended witness: a body with no themeId is rejected by both
endpoints with 400 and no uploads. -/
theorem validation_400_witness :
    (publishSection ⟨Json.obj [], goodReads, allOk⟩).resp.status = 400 ∧
    (publishSection ⟨Json.obj [], goodReads, allOk⟩).uploads = [] ∧
    (uploadFrames ⟨Json.obj [], allOk⟩).resp.status = 400 ∧
    (uploadFrames ⟨Json.obj [], allOk⟩).uploads = [] := by
  obtain ⟨a, b⟩ := validation_400 (Json.obj []) goodReads allOk
  exact ⟨(a rfl).1, (a rfl).2, (b (Or.inl rfl)).1, (b (Or.inl rfl)).2⟩

/-! ### Watcher claims -/

/-- C7 counterexample: when the local read of the changed file fails (for
example the path was removed), the exception is raised outside the try
block and escapes the async change callback uncaught — it is neither
logged by the callback nor contained, and no code anywhere removes the
path from the watch set. -/
theorem watcher_read_failure_escapes :
    changeHandler "42" "product-3d-scroll.css"
      (.error "ENOENT: no such file or directory") allOk =
    .error "ENOENT: no such file or directory" := rfl

/-- C7 amended: only upload failures are contained — a rejected upload is
caught and merely logged, while a failing read of the changed file is
thrown outside the try/catch and escapes the callback as an unhandled
rejection; the watch set is never modified on any failure. -/
theorem watcher_error_handling (tid p e content : String)
    (up : String → List Nat → Except String Json) :
    changeHandler tid p (.error e) up = .error e ∧
    (∀ msg, up ((keyMap (basename p)).getD "undefined") (utf8Bytes content) = .error msg →
      changeHandler tid p (.ok content) up =
        .ok ⟨some (uploadAsset ((keyMap (basename p)).getD "undefined") (utf8Bytes content)),
          "Failed to update " ++ basename p ++ ": " ++ msg⟩) := by
  constructor
  · rfl
  · intro msg hmsg
    unfold changeHandler
    dsimp only
    rw [hmsg]

/-- Upload oracle whose PUTs are all rejected. -/
def failUp : String → List Nat → Except String Json := fun _ _ => .error "boom"

/-- C7 amended witness: a read error escapes while an upload error is
logged. -/
theorem watcher_error_handling_witness :
    changeHandler "42" "product-3d-scroll.css" (.error "ENOENT") failUp = .error "ENOENT" ∧
    changeHandler "42" "product-3d-scroll.css" (.ok "p color red") failUp =
      .ok ⟨some (uploadAsset ((keyMap (basename "product-3d-scroll.css")).getD "undefined")
        (utf8Bytes "p color red")),
        "Failed to update " ++ basename "product-3d-scroll.css" ++ ": " ++ "boom"⟩ :=
  ⟨(watcher_error_handling "42" "product-3d-scroll.css" "ENOENT" "p color red" failUp).1,
   (watcher_error_handling "42" "product-3d-scroll.css" "ENOENT" "p color red" failUp).2
     "boom" rfl⟩

/-- Read oracle of a watcher run where the changed file always reads the
same final content. -/
def readsOk : String → Except String String := fun _ => .ok "p color red"

/-- C6 counterexample: five change events delivered for the watched css
file produce five upload attempts, not one — the watcher has no debounce
and runs the callback once per event. -/
theorem five_events_five_uploads :
    uploadAttempts (watcherRun "42" (List.replicate 5 "product-3d-scroll.css") readsOk allOk) = 5 ∧
    ¬ uploadAttempts (watcherRun "42" (List.replicate 5 "product-3d-scroll.css") readsOk allOk) = 1 :=
  ⟨rfl, by decide⟩

/-- Helper: a change callback with a successful read always issues exactly
one upload attempt, whether the upload succeeds or is rejected. -/
theorem changeHandler_read_ok (tid p c : String)
    (up : String → List Nat → Except String Json) :
    ∃ log, changeHandler tid p (.ok c) up =
      .ok ⟨some (uploadAsset ((keyMap (basename p)).getD "undefined") (utf8Bytes c)), log⟩ := by
  unfold changeHandler
  dsimp only
  cases hu : up ((keyMap (basename p)).getD "undefined") (utf8Bytes c) with
  | ok v => exact ⟨_, rfl⟩
  | error e => exact ⟨_, rfl⟩

/-- C6 amended: the watcher performs no debouncing or coalescing of its
own — each change event delivered for a readable path triggers exactly one
read and one upload attempt, so n delivered events yield n upload
attempts. -/
theorem watcher_no_debounce (tid p : String) (n : Nat) (c : String)
    (read : String → Except String String)
    (up : String → List Nat → Except String Json)
    (hr : read p = .ok c) :
    uploadAttempts (watcherRun tid (List.replicate n p) read up) = n := by
  induction n with
  | zero => rfl
  | succ k ih =>
      obtain ⟨log, hlog⟩ := changeHandler_read_ok tid p c up
      simp only [watcherRun, uploadAttempts, List.map_replicate] at ih ⊢
      rw [List.replicate_succ, List.filterMap_cons, hr, hlog]
      simp [ih]

/-- C6 amended witness: five delivered events for the css file yield five
upload attempts. -/
theorem watcher_no_debounce_witness :
    readsOk "product-3d-scroll.css" = .ok "p color red" ∧
    uploadAttempts (watcherRun "42" (List.replicate 5 "product-3d-scroll.css") readsOk allOk) = 5 :=
  ⟨rfl, watcher_no_debounce "42" "product-3d-scroll.css" 5 "p color red" readsOk allOk rfl⟩

/-! ### Concurrency claims -/

/-- Contents captured by two successive change events on the same key:
event 0 reads the older content, event 1 the newer. -/
def twoContents : Nat → String := fun i => if i = 0 then "older content" else "newer content"

/-- C5 counterexample: the schedule start 0, start 1, complete 1,
complete 0 is a valid event-loop schedule of two changes to the same
remote key — two uploads are in flight at once (so there is no
one-in-flight invariant), and because the code never discards a stale
completion the remote ends with the OLDER content: the earlier in-flight
write, completing later, overwrote the newer one. -/
theorem stale_overwrite_counterexample :
    validTrace 2 [WAction.start 0, WAction.start 1, WAction.complete 1, WAction.complete 0]
      = true ∧
    maxInFlight [WAction.start 0, WAction.start 1, WAction.complete 1, WAction.complete 0] = 2 ∧
    remoteAfter twoContents none
      [WAction.start 0, WAction.start 1, WAction.complete 1, WAction.complete 0]
      = some "older content" ∧
    ¬ remoteAfter twoContents none
      [WAction.start 0, WAction.start 1, WAction.complete 1, WAction.complete 0]
      = some "newer content" :=
  ⟨rfl, rfl, rfl, by decide⟩

/-- Helper: remoteAfter distributes over concatenation of schedules. -/
theorem remoteAfter_append (contents : Nat → String) :
    ∀ l1 l2 : List WAction, ∀ r : Option String,
    remoteAfter contents r (l1 ++ l2) = remoteAfter contents (remoteAfter contents r l1) l2 := by
  intro l1
  induction l1 with
  | nil => intro l2 r; rfl
  | cons a rest ih =>
      intro l2 r
      cases a with
      | start i => simp only [List.cons_append, remoteAfter, List.append_eq, ih]
      | complete i => simp only [List.cons_append, remoteAfter, List.append_eq, ih]

/-- Helper: a schedule with no completion leaves the remote unchanged. -/
theorem remoteAfter_no_complete (contents : Nat → String) :
    ∀ l : List WAction, (∀ i, WAction.complete i ∉ l) → ∀ r : Option String,
    remoteAfter contents r l = r := by
  intro l
  induction l with
  | nil => intro _ _; rfl
  | cons a rest ih =>
      intro h r
      cases a with
      | start i =>
          exact ih (fun j hj => h j (List.mem_cons_of_mem _ hj)) r
      | complete i =>
          exact absurd (List.mem_cons_self _ _) (h i)

/-- C5 amended: uploads to the same remote key are not serialized and no
version is tracked — the remote simply keeps the content of whichever
upload completes last in the schedule; when the last completion belongs to
an older change (an older in-flight write finishing after a newer one),
the older content stands, and no AssetRecord exists at all. -/
theorem remote_is_last_completed (contents : Nat → String) (r : Option String)
    (tr1 tr2 : List WAction) (i : Nat)
    (h2 : ∀ j, WAction.complete j ∉ tr2) :
    remoteAfter contents r (tr1 ++ WAction.complete i :: tr2) = some (contents i) := by
  rw [remoteAfter_append]
  rw [show WAction.complete i :: tr2 = [WAction.complete i] ++ tr2 from rfl]
  rw [remoteAfter_append]
  exact remoteAfter_no_complete contents tr2 h2 _

/-- C5 amended witness: in the stale-completion schedule the remote keeps
the older content, the upload whose completion came last. -/
theorem remote_is_last_completed_witness :
    (∀ j, WAction.complete j ∉ ([] : List WAction)) ∧
    remoteAfter twoContents none
      ([WAction.start 0, WAction.start 1, WAction.complete 1] ++ WAction.complete 0 :: [])
      = some (twoContents 0) :=
  ⟨fun _ => List.not_mem_nil _,
   remote_is_last_completed twoContents none
     [WAction.start 0, WAction.start 1, WAction.complete 1] [] 0
     (fun _ => List.not_mem_nil _)⟩

end StorefrontCloner
